import Mathlib

/-!
Shallow embedding of the booking / checkout / webhook-reconciliation flow of
the studioelan repository.

Sources embedded:
  * `src/app/api/webhook/route.ts` — `StripeWebhookService` and the webhook `POST` handler
  * `src/app/api/create-checkout-session/route.ts` — `CheckoutSessionService`
  * `src/lib/api/error-handler.ts` — `ApiError`, `ApiErrorHandler`

Modelling conventions:
  * The Prisma database is a record of lists (`DB`); `findUnique` becomes
    `List.find?`, `count` becomes `List.filter` + `length`, `create` appends.
  * JavaScript `new Date(string)` is abstracted by `jsDate : String → Option Nat`
    (`none` models an Invalid Date); two dates stored in the database compare
    equal via `dateEq`, under which an Invalid Date equals nothing (JS `NaN`
    semantics, and Prisma never matches an invalid date).
  * JavaScript truthiness on strings/numbers is modelled explicitly
    (empty string and `0` are falsy), as in `session.currency || 'eur'` and
    `session.amount_total ? session.amount_total / 100 : 0`.
  * Thrown exceptions become `Except` / `ThrownError` values; the `try/catch`
    around a route handler becomes a `match` feeding `ApiErrorHandler.handle`.
  * `createdAt` / `updatedAt` timestamps and the `include` clause of
    `tx.booking.create` are not modelled (no claim depends on them).
  * Monetary values are modelled as rationals (`ℚ`); `Math.round` is
    `jsRound` (round half toward +∞, JavaScript semantics).
-/

/-- Booking status enum from the Prisma schema. -/
inductive BookingStatus where
  | PENDING
  | CONFIRMED
  | CANCELLED
  | COMPLETED
deriving DecidableEq, Repr

/-- Payment status enum from the Prisma schema. -/
inductive PaymentStatus where
  | PENDING
  | PAID
  | FAILED
  | REFUNDED
deriving DecidableEq, Repr

/-- A `Course` row, fields as selected by the two routes. -/
structure Course where
  id : String
  title : String
  description : String
  price : ℚ
  duration : Nat
  capacity : Nat
  level : String
deriving DecidableEq, Repr

/-- A `User` row (only the fields the webhook reads). -/
structure User where
  id : String
  email : String
  name : String
deriving DecidableEq, Repr

/-- A `Booking` row, fields as written by the webhook reconciler.
`date` is the stored JS `Date`: `none` models an Invalid Date. -/
structure Booking where
  courseId : String
  userId : String
  date : Option Nat
  status : BookingStatus
  paymentId : String
  paymentStatus : PaymentStatus
  amount : ℚ
  currency : String
deriving DecidableEq, Repr

/-- The relational store visible to the flow. -/
structure DB where
  courses : List Course
  users : List User
  bookings : List Booking
deriving DecidableEq, Repr

/-- Models JS `new Date(s)`: a date string either parses to an absolute
timestamp or yields an Invalid Date (`none`). Parsing itself is abstracted
as reading a decimal timestamp. -/
def jsDate (s : String) : Option Nat :=
  if s.data ≠ [] ∧ s.data.all Char.isDigit then
    some (s.data.foldl (fun n c => n * 10 + (c.toNat - 48)) 0)
  else none

/-- Equality of stored JS dates: an Invalid Date (`none`, i.e. `NaN` time)
is equal to nothing, itself included. -/
def dateEq : Option Nat → Option Nat → Bool
  | some a, some b => a == b
  | _, _ => false

/-- Models JS `Math.round` (round half toward +∞). -/
def jsRound (q : ℚ) : ℤ :=
  ⌊q + 1 / 2⌋

/-- Sum view of an `Except`, used to derive decidable equality. -/
def Except.toSum {ε α : Type} : Except ε α → ε ⊕ α
  | .error e => .inl e
  | .ok a => .inr a

instance {ε α : Type} [DecidableEq ε] [DecidableEq α] : DecidableEq (Except ε α) :=
  fun a b =>
    decidable_of_iff (a.toSum = b.toSum) (by
      cases a <;> cases b <;> simp [Except.toSum])

/-- `prisma.course.findUnique({ where: { id } })`. -/
def findCourse (db : DB) (courseId : String) : Option Course :=
  db.courses.find? (fun c => c.id == courseId)

/-- `prisma.user.findUnique({ where: { id } })`. -/
def findUser (db : DB) (userId : String) : Option User :=
  db.users.find? (fun u => u.id == userId)

/-- A `prisma.booking.count` with `where: { courseId, date, status: { in: statuses } }`. -/
def countByStatuses (db : DB) (courseId : String) (dateStr : String)
    (statuses : List BookingStatus) : Nat :=
  (db.bookings.filter (fun b =>
    b.courseId == courseId && dateEq b.date (jsDate dateStr) &&
      statuses.contains b.status)).length

/-- The `tx.booking.count` inside the webhook transaction:
`where: { courseId, date, status: 'CONFIRMED' }`. -/
def confirmedCount (db : DB) (courseId : String) (dateStr : String) : Nat :=
  (db.bookings.filter (fun b =>
    b.courseId == courseId && dateEq b.date (jsDate dateStr) &&
      b.status == BookingStatus.CONFIRMED)).length

/-! ### `src/lib/api/error-handler.ts` -/

/-- `ErrorType` from the error handler. -/
inductive ErrorType where
  | VALIDATION
  | AUTHENTICATION
  | AUTHORIZATION
  | NOT_FOUND
  | CONFLICT
  | RATE_LIMIT
  | EXTERNAL_SERVICE
  | INTERNAL
deriving DecidableEq, Repr

/-- The custom `ApiError` class. -/
structure ApiError where
  type : ErrorType
  message : String
  statusCode : Nat
deriving DecidableEq, Repr

/-- The value reaching the route-level `catch` block: which JS error class
was thrown, as dispatched on by `ApiErrorHandler.handle`. -/
inductive ThrownError where
  | zod (issues : List String)
  | prismaKnown (code : String)
  | api (e : ApiError)
  | stripeTyped (ty : String) (message : String)
  | plain (message : String)
deriving DecidableEq, Repr

/-- An HTTP response, reduced to the status code and the standardized
error-type tag of its JSON body (`none` for a success body). -/
structure HttpResponse where
  status : Nat
  errorType : Option ErrorType
deriving DecidableEq, Repr

/-- `ApiErrorHandler.handle`: turns any thrown error into a standardized
HTTP response, branch for branch as in the source. -/
def ApiErrorHandler.handle : ThrownError → HttpResponse
  | .zod _ => { status := 400, errorType := some .VALIDATION }
  | .prismaKnown code =>
      if code = "P2002" then { status := 409, errorType := some .CONFLICT }
      else if code = "P2025" then { status := 404, errorType := some .NOT_FOUND }
      else { status := 500, errorType := some .INTERNAL }
  | .api e => { status := e.statusCode, errorType := some e.type }
  | .stripeTyped ty _ =>
      if ty.startsWith "Stripe" then { status := 502, errorType := some .EXTERNAL_SERVICE }
      else { status := 500, errorType := some .INTERNAL }
  | .plain _ => { status := 500, errorType := some .INTERNAL }

/-- `ApiErrorHandler.unauthorized`. -/
def ApiErrorHandler.unauthorized (message : String) : ApiError :=
  { type := .AUTHENTICATION, message := message, statusCode := 401 }

/-- `ApiErrorHandler.forbidden`. -/
def ApiErrorHandler.forbidden (message : String) : ApiError :=
  { type := .AUTHORIZATION, message := message, statusCode := 403 }

/-- `ApiErrorHandler.notFound`. -/
def ApiErrorHandler.notFound (message : String) : ApiError :=
  { type := .NOT_FOUND, message := message, statusCode := 404 }

/-- `ApiErrorHandler.conflict`. -/
def ApiErrorHandler.conflict (message : String) : ApiError :=
  { type := .CONFLICT, message := message, statusCode := 409 }

/-- `ApiErrorHandler.rateLimited`. -/
def ApiErrorHandler.rateLimited (message : String) : ApiError :=
  { type := .RATE_LIMIT, message := message, statusCode := 429 }

/-! ### `src/app/api/webhook/route.ts` -/

/-- Raw `Stripe.Metadata` of a checkout session: each expected key is either
absent (`none`, i.e. `undefined`) or a string. -/
structure RawMetadata where
  courseId : Option String
  date : Option String
  userId : Option String
  bookingType : Option String
deriving DecidableEq, Repr

/-- Validated session metadata (`IValidatedSessionMetadata`). -/
structure IValidatedSessionMetadata where
  courseId : String
  date : String
  userId : String
  bookingType : String
deriving DecidableEq, Repr

/-- A `Stripe.Checkout.Session` as read by the webhook service.
`payment_intent` is the string the source casts it to. -/
structure StripeSession where
  id : String
  payment_intent : String
  amount_total : Option Int
  currency : Option String
  metadata : Option RawMetadata
deriving DecidableEq, Repr

/-- JS truthiness of an optional string (`undefined` and `''` are falsy). -/
def truthyStr : Option String → Bool
  | none => false
  | some s => s ≠ ""

/-- `StripeWebhookService.validateSessionMetadata`: field-by-field check of
the session metadata, in source order; `!field` rejects both a missing key
and an empty string. -/
def StripeWebhookService.validateSessionMetadata :
    Option RawMetadata → Except String IValidatedSessionMetadata
  | none => .error "Métadonnées de session manquantes"
  | some md =>
    if ¬ truthyStr md.courseId then
      .error "ID de cours invalide dans les métadonnées"
    else if ¬ truthyStr md.date then
      .error "Date invalide dans les métadonnées"
    else if ¬ truthyStr md.userId then
      .error "ID utilisateur invalide dans les métadonnées"
    else if md.bookingType ≠ some "course_booking" then
      .error "Type de réservation invalide"
    else
      match md.courseId, md.date, md.userId with
      | some courseId, some date, some userId =>
        if (jsDate date).isNone then
          .error "Format de date invalide"
        else
          .ok { courseId := courseId, date := date, userId := userId,
                bookingType := "course_booking" }
      | _, _, _ => .error "Métadonnées de session manquantes"

/-- The duplicate-booking filter of `prisma.booking.findFirst` in
`createConfirmedBooking`: same course, same user, same date, status in
{CONFIRMED, PENDING}. -/
def duplicateFilter (metadata : IValidatedSessionMetadata) (b : Booking) : Bool :=
  b.courseId == metadata.courseId && b.userId == metadata.userId &&
    dateEq b.date (jsDate metadata.date) &&
    (b.status == BookingStatus.CONFIRMED || b.status == BookingStatus.PENDING)

/-- The booking record passed to `tx.booking.create` by the webhook
reconciler: status CONFIRMED, paymentStatus PAID, the provider's payment
reference, and amount/currency taken from the session with JS truthiness
(`session.amount_total ? session.amount_total / 100 : 0` and
`session.currency || 'eur'`). -/
def createdBooking (metadata : IValidatedSessionMetadata)
    (session : StripeSession) : Booking :=
  { courseId := metadata.courseId
    userId := metadata.userId
    date := jsDate metadata.date
    status := .CONFIRMED
    paymentId := session.payment_intent
    paymentStatus := .PAID
    amount :=
      match session.amount_total with
      | some a => if a ≠ 0 then (a : ℚ) / 100 else 0
      | none => 0
    currency :=
      match session.currency with
      | some c => if c ≠ "" then c else "eur"
      | none => "eur" }

/-- `StripeWebhookService.createConfirmedBooking`: course and user lookups,
idempotency check, then the transactional capacity re-check and insert.
Returns the thrown error or the booking, together with the database after
the call (the transaction rolls back on the capacity error, so every error
path leaves the database unchanged). -/
def StripeWebhookService.createConfirmedBooking (db : DB)
    (metadata : IValidatedSessionMetadata) (session : StripeSession) :
    Except String Booking × DB :=
  match findCourse db metadata.courseId with
  | none => (.error "Cours introuvable", db)
  | some course =>
    match findUser db metadata.userId with
    | none => (.error "Utilisateur introuvable", db)
    | some _user =>
      match db.bookings.find? (duplicateFilter metadata) with
      | some existingBooking => (.ok existingBooking, db)
      | none =>
        if course.capacity ≤ confirmedCount db metadata.courseId metadata.date then
          (.error "Cours complet - capacité dépassée", db)
        else
          (.ok (createdBooking metadata session),
            { db with bookings := db.bookings ++ [createdBooking metadata session] })

/-- `StripeWebhookService.handleCheckoutSessionCompleted`: validate the
metadata, then create the confirmed booking; any error is re-thrown. -/
def StripeWebhookService.handleCheckoutSessionCompleted (db : DB)
    (session : StripeSession) : Except String Booking × DB :=
  match StripeWebhookService.validateSessionMetadata session.metadata with
  | .error e => (.error e, db)
  | .ok metadata => StripeWebhookService.createConfirmedBooking db metadata session

/-- A parsed Stripe event, as dispatched on by the webhook `POST` handler. -/
inductive StripeEvent where
  | checkoutSessionCompleted (session : StripeSession)
  | checkoutSessionExpired (session : StripeSession)
  | paymentIntentPaymentFailed (paymentIntentId : String)
  | otherEvent (eventType : String)
deriving DecidableEq, Repr

/-- An incoming webhook request: raw body plus the `stripe-signature` header. -/
structure WebhookRequest where
  body : String
  signatureHeader : Option String
deriving DecidableEq, Repr

/-- The webhook `POST` handler. `constructEvent` is the gateway's signature
verification primitive (`stripe.webhooks.constructEvent`): given the raw
body, the signature header and the shared secret it either throws or
returns the parsed event. `webhookSecret` is `process.env.STRIPE_WEBHOOK_SECRET`.
Returns the HTTP response and the database after the request. -/
def webhookPOST (constructEvent : String → String → String → Except String StripeEvent)
    (webhookSecret : Option String) (db : DB) (request : WebhookRequest) :
    HttpResponse × DB :=
  match request.signatureHeader with
  | none =>
    (ApiErrorHandler.handle (.api (ApiErrorHandler.unauthorized "Signature Stripe manquante")), db)
  | some signature =>
    match webhookSecret with
    | none => (ApiErrorHandler.handle (.plain "STRIPE_WEBHOOK_SECRET non configuré"), db)
    | some secret =>
      match constructEvent request.body signature secret with
      | .error _ =>
        (ApiErrorHandler.handle (.api (ApiErrorHandler.unauthorized "Signature Stripe invalide")), db)
      | .ok event =>
        match event with
        | .checkoutSessionCompleted session =>
          match StripeWebhookService.handleCheckoutSessionCompleted db session with
          | (.error e, _) => (ApiErrorHandler.handle (.plain e), db)
          | (.ok _, db2) => ({ status := 200, errorType := none }, db2)
        | _ => ({ status := 200, errorType := none }, db)

/-! ### `src/app/api/create-checkout-session/route.ts` -/

/-- A validated checkout request (`ICreateCheckoutSessionRequest`, after the
zod schema has accepted it). -/
structure ICreateCheckoutSessionRequest where
  courseId : String
  date : String
  userId : String
deriving DecidableEq, Repr

/-- The parameters `createStripeSession` passes to
`stripe.checkout.sessions.create` (the fields a claim can depend on). -/
structure StripeSessionParams where
  currency : String
  productName : String
  unit_amount : ℤ
  quantity : Nat
  mode : String
  metadataCourseId : String
  metadataDate : String
  metadataUserId : String
  metadataBookingType : String
deriving DecidableEq, Repr

/-- A gateway-side error thrown by `stripe.checkout.sessions.create`
(its `type` starts with `Stripe` for real Stripe errors). -/
structure StripeGatewayError where
  type : String
  message : String
deriving DecidableEq, Repr

/-- `CheckoutSessionService.getCourseData` (error message abridged). -/
def CheckoutSessionService.getCourseData (db : DB) (courseId : String) :
    Except ApiError Course :=
  match findCourse db courseId with
  | none => .error (ApiErrorHandler.notFound "Cours introuvable")
  | some course => .ok course

/-- `CheckoutSessionService.checkAvailability`: the soft availability check.
It counts bookings for `(courseId, date)` with `status: { in: ['CONFIRMED',
'PENDING'] }` and compares the count against the course capacity. -/
def CheckoutSessionService.checkAvailability (db : DB) (courseId : String)
    (date : String) : Except ApiError Bool :=
  match findCourse db courseId with
  | none => .error (ApiErrorHandler.notFound "Cours introuvable")
  | some course =>
    if course.capacity ≤ countByStatuses db courseId date [.CONFIRMED, .PENDING] then
      .error (ApiErrorHandler.conflict "Ce cours est complet pour cette date")
    else
      .ok true

/-- `CheckoutSessionService.createStripeSession`, restricted to the request
it builds: the deterministic parameters sent to the payment gateway.
`unit_amount` is `Math.round(course.price * 100)`. -/
def CheckoutSessionService.createStripeSessionParams
    (data : ICreateCheckoutSessionRequest) (course : Course) : StripeSessionParams :=
  { currency := "eur"
    productName := course.title ++ " - Séance de " ++ toString course.duration ++ " minutes"
    unit_amount := jsRound (course.price * 100)
    quantity := 1
    mode := "payment"
    metadataCourseId := data.courseId
    metadataDate := data.date
    metadataUserId := data.userId
    metadataBookingType := "course_booking" }

/-- `CheckoutSessionService.createSession`: the self-booking check, the
course lookup, the availability check, then the gateway call, in source
order. `gateway` is `stripe.checkout.sessions.create` (an external
collaborator), returning the session id and redirect URL or throwing a
gateway error. The database after the call is returned alongside: the
source performs only reads, so every branch leaves it unchanged. -/
def CheckoutSessionService.createSession
    (gateway : StripeSessionParams → Except StripeGatewayError (String × Option String))
    (db : DB) (data : ICreateCheckoutSessionRequest) (userId : String) :
    Except ThrownError (String × Option String) × DB :=
  if data.userId ≠ userId then
    (.error (.api (ApiErrorHandler.forbidden "Vous ne pouvez réserver que pour vous-même")), db)
  else
    match CheckoutSessionService.getCourseData db data.courseId with
    | .error e => (.error (.api e), db)
    | .ok course =>
      match CheckoutSessionService.checkAvailability db data.courseId data.date with
      | .error e => (.error (.api e), db)
      | .ok _ =>
        match gateway (CheckoutSessionService.createStripeSessionParams data course) with
        | .error e => (.error (.stripeTyped e.type e.message), db)
        | .ok result => (.ok result, db)

/-! ### Concrete fixtures used by witnesses and counterexamples -/

/-- A course with two seats. -/
def exCourse : Course :=
  { id := "course-1", title := "Yoga Doux", description := "Cours doux"
    price := 25, duration := 60, capacity := 2, level := "Débutant" }

/-- The same course with a single seat. -/
def exCourseCap1 : Course :=
  { exCourse with capacity := 1 }

/-- A registered user. -/
def exUser : User :=
  { id := "user-1", email := "alice@example.fr", name := "Alice" }

/-- A second registered user. -/
def exUser2 : User :=
  { id := "user-2", email := "chloe@example.fr", name := "Chloé" }

/-- A date string that parses (`jsDate` succeeds on it). -/
def exDateStr : String := "1735689600"

/-- Validated metadata for `exUser` booking `exCourse` at `exDateStr`. -/
def exMeta : IValidatedSessionMetadata :=
  { courseId := "course-1", date := exDateStr, userId := "user-1"
    bookingType := "course_booking" }

/-- The raw form of `exMeta`, as it arrives on the Stripe session. -/
def exRawMeta : RawMetadata :=
  { courseId := some "course-1", date := some exDateStr, userId := some "user-1"
    bookingType := some "course_booking" }

/-- A completed Stripe checkout session carrying `exRawMeta`
(`amount_total` null, as for a fully discounted session). -/
def exSession : StripeSession :=
  { id := "cs_1", payment_intent := "pi_1", amount_total := none
    currency := some "eur", metadata := some exRawMeta }

/-- A database with `exCourse`, both users and no bookings. -/
def exDB : DB :=
  { courses := [exCourse], users := [exUser, exUser2], bookings := [] }

/-- A PENDING booking by `exUser2` for `exCourse` at `exDateStr`. -/
def exPendingBooking : Booking :=
  { courseId := "course-1", userId := "user-2", date := some 1735689600
    status := .PENDING, paymentId := "pi_0", paymentStatus := .PENDING
    amount := 0, currency := "eur" }

/-- A CONFIRMED booking by `exUser2` for `exCourse` at `exDateStr`. -/
def exConfirmedBooking : Booking :=
  { exPendingBooking with status := .CONFIRMED, paymentStatus := .PAID, amount := 25 }

/-- Single-seat course, one PENDING booking by `exUser2`. -/
def dbPend : DB :=
  { courses := [exCourseCap1], users := [exUser, exUser2]
    bookings := [exPendingBooking] }

/-- Single-seat course, one CONFIRMED booking by `exUser2`: the course is
full at confirmation time for any other user. -/
def dbFull : DB :=
  { courses := [exCourseCap1], users := [exUser, exUser2]
    bookings := [exConfirmedBooking] }

/-- A signature-verification primitive that accepts every request and
parses it to a fixed completed-checkout event. -/
def ceCompleted (session : StripeSession) :
    String → String → String → Except String StripeEvent :=
  fun _ _ _ => .ok (.checkoutSessionCompleted session)

/-- A signature-verification primitive that rejects every request. -/
def ceReject : String → String → String → Except String StripeEvent :=
  fun _ _ _ => .error "No signatures found matching the expected signature for payload"

/-- A payment gateway that accepts every session-creation call. -/
def gwOk : StripeSessionParams → Except StripeGatewayError (String × Option String) :=
  fun _ => .ok ("cs_1", some "https://checkout.stripe.test/cs_1")

/-- A checkout request by `exUser` for `exCourse` at `exDateStr`. -/
def exRequestData : ICreateCheckoutSessionRequest :=
  { courseId := "course-1", date := exDateStr, userId := "user-1" }

/-- A webhook request with a signature header present. -/
def exWebhookReq : WebhookRequest :=
  { body := "payload", signatureHeader := some "t=1,v1=deadbeef" }

/-- Validated metadata for `exUser2` (who already holds `exPendingBooking`). -/
def metaU2 : IValidatedSessionMetadata :=
  { courseId := "course-1", date := exDateStr, userId := "user-2"
    bookingType := "course_booking" }

/-- The booking `createConfirmedBooking` writes for `exMeta` / `exSession`. -/
def exCreatedBooking : Booking :=
  { courseId := "course-1", userId := "user-1", date := some 1735689600
    status := .CONFIRMED, paymentId := "pi_1", paymentStatus := .PAID
    amount := 0, currency := "eur" }

/-- `exDB` after that booking has been created. -/
def exDBAfter : DB :=
  { exDB with bookings := [exCreatedBooking] }

/-- A checkout request whose `userId` is not the caller `exUser`. -/
def exRequestDataOther : ICreateCheckoutSessionRequest :=
  { exRequestData with userId := "user-2" }

/-- A checkout request for a course id absent from the database. -/
def exRequestDataNoCourse : ICreateCheckoutSessionRequest :=
  { exRequestData with courseId := "course-404" }

/-- A completed session whose `currency` is the empty string (non-null)
and whose `amount_total` is 2550 cents. -/
def exSessionEmptyCur : StripeSession :=
  { exSession with currency := some "", amount_total := some 2550 }

/-! ### Theorems -/

/-- Filtering a one-element list keeps at most one element. -/
theorem filter_singleton_length_le {α : Type} (p : α → Bool) (a : α) :
    (List.filter p [a]).length ≤ 1 := by
  simp only [List.filter]
  split <;> simp

/-- Appending one booking raises a CONFIRMED count by at most one. -/
theorem confirmedCount_append_le (db : DB) (courseId dateStr : String) (bk : Booking) :
    confirmedCount { db with bookings := db.bookings ++ [bk] } courseId dateStr ≤
      confirmedCount db courseId dateStr + 1 := by
  unfold confirmedCount
  dsimp only
  rw [List.filter_append, List.length_append]
  have h := filter_singleton_length_le
    (fun b => b.courseId == courseId && dateEq b.date (jsDate dateStr) &&
      b.status == BookingStatus.CONFIRMED) bk
  omega

/-- **C1.** The capacity invariant is preserved by webhook reconciliation:
if the CONFIRMED-booking count for the event's (course, date) pair is at
most the course's capacity before `createConfirmedBooking` runs, it is
still at most the capacity afterwards — the reconciler creates a CONFIRMED
booking only when the recount is strictly below capacity and aborts
otherwise, and every other path leaves the bookings unchanged. -/
theorem capacity_invariant_preserved
    (db : DB) (metadata : IValidatedSessionMetadata) (session : StripeSession)
    (course : Course)
    (hc : findCourse db metadata.courseId = some course)
    (hinv : confirmedCount db metadata.courseId metadata.date ≤ course.capacity) :
    confirmedCount
      (StripeWebhookService.createConfirmedBooking db metadata session).2
      metadata.courseId metadata.date ≤ course.capacity := by
  unfold StripeWebhookService.createConfirmedBooking
  rw [hc]
  cases hu : findUser db metadata.userId with
  | none => exact hinv
  | some user =>
    cases hdup : db.bookings.find? (duplicateFilter metadata) with
    | some b => exact hinv
    | none =>
      by_cases hcap :
          course.capacity ≤ confirmedCount db metadata.courseId metadata.date
      · simp only [hcap, if_true]
        exact hinv
      · simp only [hcap, if_false]
        have hlt : confirmedCount db metadata.courseId metadata.date < course.capacity :=
          Nat.lt_of_not_le hcap
        exact le_trans (confirmedCount_append_le db _ _ _) (by omega)

/-- Witness for C1 at a concrete database: one course of capacity 2, no
prior bookings, one valid reconciliation. -/
theorem capacity_invariant_preserved_witness :
    confirmedCount
      (StripeWebhookService.createConfirmedBooking exDB exMeta exSession).2
      exMeta.courseId exMeta.date ≤ exCourse.capacity :=
  capacity_invariant_preserved exDB exMeta exSession exCourse (by decide) (by decide)

/-- A defined optional date compares equal to itself. -/
theorem dateEq_self {o : Option Nat} (h : o.isSome) : dateEq o o = true := by
  cases o with
  | none => simp at h
  | some a => simp [dateEq]

/-- **C2, counterexample.** The claim says the soft availability check counts
only CONFIRMED bookings. On a single-seat course with one PENDING booking
and zero CONFIRMED bookings, the CONFIRMED-only count (0) is strictly below
the capacity (1), yet `checkAvailability` rejects with Conflict: the soft
check counted the PENDING booking. -/
theorem soft_check_counts_pending_counterexample :
    confirmedCount dbPend "course-1" exDateStr = 0 ∧
    0 < exCourseCap1.capacity ∧
    countByStatuses dbPend "course-1" exDateStr [.CONFIRMED, .PENDING] = 1 ∧
    CheckoutSessionService.checkAvailability dbPend "course-1" exDateStr =
      .error (ApiErrorHandler.conflict "Ce cours est complet pour cette date") := by
  decide

/-- **C2, amended.** The soft availability check counts the existing
bookings for `(courseId, date)` whose status is CONFIRMED **or PENDING**
and admits the request exactly when that count is strictly below the
course's capacity; a PENDING booking for the pair is counted by this soft
check, while the webhook's transactional check (`confirmedCount`) does not
count it. -/
theorem checkAvailability_counts_confirmed_and_pending
    (db : DB) (courseId date : String) (course : Course)
    (hc : findCourse db courseId = some course)
    (b : Booking) (hb1 : b.courseId = courseId)
    (hb2 : dateEq b.date (jsDate date) = true) (hb3 : b.status = .PENDING) :
    (CheckoutSessionService.checkAvailability db courseId date = .ok true ↔
      countByStatuses db courseId date [.CONFIRMED, .PENDING] < course.capacity) ∧
    countByStatuses { db with bookings := b :: db.bookings } courseId date
        [.CONFIRMED, .PENDING]
      = countByStatuses db courseId date [.CONFIRMED, .PENDING] + 1 ∧
    confirmedCount { db with bookings := b :: db.bookings } courseId date
      = confirmedCount db courseId date := by
  refine ⟨?_, ?_, ?_⟩
  · unfold CheckoutSessionService.checkAvailability
    rw [hc]
    dsimp only
    by_cases hcap :
        course.capacity ≤ countByStatuses db courseId date [.CONFIRMED, .PENDING]
    · rw [if_pos hcap]
      constructor
      · intro h
        simp at h
      · intro h
        exact absurd h (Nat.not_lt.mpr hcap)
    · rw [if_neg hcap]
      constructor
      · intro _
        exact Nat.lt_of_not_le hcap
      · intro _
        rfl
  · unfold countByStatuses
    dsimp only
    rw [List.filter_cons_of_pos]
    · simp
    · simp [hb1, hb2, hb3]
  · unfold confirmedCount
    dsimp only
    rw [List.filter_cons_of_neg]
    simp [hb3]

/-- Witness for the amended C2 at a concrete database: `exCourse` has two
seats and no bookings, and `exPendingBooking` matches the pair. -/
theorem checkAvailability_counts_confirmed_and_pending_witness :
    (CheckoutSessionService.checkAvailability exDB "course-1" exDateStr = .ok true ↔
      countByStatuses exDB "course-1" exDateStr [.CONFIRMED, .PENDING] <
        exCourse.capacity) ∧
    countByStatuses { exDB with bookings := exPendingBooking :: exDB.bookings }
        "course-1" exDateStr [.CONFIRMED, .PENDING]
      = countByStatuses exDB "course-1" exDateStr [.CONFIRMED, .PENDING] + 1 ∧
    confirmedCount { exDB with bookings := exPendingBooking :: exDB.bookings }
        "course-1" exDateStr
      = confirmedCount exDB "course-1" exDateStr :=
  checkAvailability_counts_confirmed_and_pending exDB "course-1" exDateStr exCourse
    (by decide) exPendingBooking (by decide) (by decide) (by decide)

/-- When the duplicate check finds an existing booking, the reconciler
returns it and leaves the database unchanged. -/
theorem createConfirmedBooking_dup
    (db : DB) (metadata : IValidatedSessionMetadata) (session : StripeSession)
    (course : Course) (user : User) (b : Booking)
    (hc : findCourse db metadata.courseId = some course)
    (hu : findUser db metadata.userId = some user)
    (hb : db.bookings.find? (duplicateFilter metadata) = some b) :
    StripeWebhookService.createConfirmedBooking db metadata session = (.ok b, db) := by
  unfold StripeWebhookService.createConfirmedBooking
  rw [hc, hu, hb]

/-- When there is no duplicate and the course is full, the reconciler
aborts with the capacity error and leaves the database unchanged. -/
theorem createConfirmedBooking_full
    (db : DB) (metadata : IValidatedSessionMetadata) (session : StripeSession)
    (course : Course) (user : User)
    (hc : findCourse db metadata.courseId = some course)
    (hu : findUser db metadata.userId = some user)
    (hdup : db.bookings.find? (duplicateFilter metadata) = none)
    (hcap : course.capacity ≤ confirmedCount db metadata.courseId metadata.date) :
    StripeWebhookService.createConfirmedBooking db metadata session =
      (.error "Cours complet - capacité dépassée", db) := by
  unfold StripeWebhookService.createConfirmedBooking
  rw [hc, hu, hdup]
  dsimp only
  rw [if_pos hcap]

/-- When there is no duplicate and capacity remains, the reconciler appends
the created CONFIRMED booking. -/
theorem createConfirmedBooking_created
    (db : DB) (metadata : IValidatedSessionMetadata) (session : StripeSession)
    (course : Course) (user : User)
    (hc : findCourse db metadata.courseId = some course)
    (hu : findUser db metadata.userId = some user)
    (hdup : db.bookings.find? (duplicateFilter metadata) = none)
    (hcap : confirmedCount db metadata.courseId metadata.date < course.capacity) :
    StripeWebhookService.createConfirmedBooking db metadata session =
      (.ok (createdBooking metadata session),
        { db with bookings := db.bookings ++ [createdBooking metadata session] }) := by
  unfold StripeWebhookService.createConfirmedBooking
  rw [hc, hu, hdup]
  dsimp only
  rw [if_neg (Nat.not_le.mpr hcap)]

/-- The booking created for validated metadata matches the duplicate
filter of a later delivery of the same event. -/
theorem duplicateFilter_createdBooking
    (metadata : IValidatedSessionMetadata) (session : StripeSession)
    (hd : (jsDate metadata.date).isSome) :
    duplicateFilter metadata (createdBooking metadata session) = true := by
  simp [duplicateFilter, createdBooking, dateEq_self hd]

/-- **C4.** Webhook processing is idempotent with respect to duplicate
delivery: (1) if a booking with the same `(userId, courseId, date)` and
status in {CONFIRMED, PENDING} already exists, the reconciler creates no
new row and returns success with the existing booking; (2) hence a second
delivery of an event whose first processing succeeded changes nothing —
the same webhook delivered twice yields exactly one CONFIRMED booking. -/
theorem webhook_idempotent
    (db : DB) (metadata : IValidatedSessionMetadata) (session : StripeSession)
    (course : Course) (user : User)
    (hc : findCourse db metadata.courseId = some course)
    (hu : findUser db metadata.userId = some user)
    (hd : (jsDate metadata.date).isSome) :
    (∀ b, db.bookings.find? (duplicateFilter metadata) = some b →
      StripeWebhookService.createConfirmedBooking db metadata session = (.ok b, db)) ∧
    (∀ db₁ b₁,
      StripeWebhookService.createConfirmedBooking db metadata session = (.ok b₁, db₁) →
      StripeWebhookService.createConfirmedBooking db₁ metadata session = (.ok b₁, db₁)) := by
  constructor
  · intro b hb
    exact createConfirmedBooking_dup db metadata session course user b hc hu hb
  · intro db₁ b₁ h1
    cases hdup : db.bookings.find? (duplicateFilter metadata) with
    | some e =>
      rw [createConfirmedBooking_dup db metadata session course user e hc hu hdup] at h1
      simp only [Prod.mk.injEq, Except.ok.injEq] at h1
      obtain ⟨rfl, rfl⟩ := h1
      exact createConfirmedBooking_dup db metadata session course user e hc hu hdup
    | none =>
      by_cases hcap :
          course.capacity ≤ confirmedCount db metadata.courseId metadata.date
      · rw [createConfirmedBooking_full db metadata session course user
            hc hu hdup hcap] at h1
        simp at h1
      · have hlt := Nat.lt_of_not_le hcap
        rw [createConfirmedBooking_created db metadata session course user
            hc hu hdup hlt] at h1
        simp only [Prod.mk.injEq, Except.ok.injEq] at h1
        obtain ⟨rfl, rfl⟩ := h1
        have hfind :
            (db.bookings ++ [createdBooking metadata session]).find?
              (duplicateFilter metadata) = some (createdBooking metadata session) := by
          rw [List.find?_append, hdup,
            List.find?_cons_of_pos _ (duplicateFilter_createdBooking metadata session hd)]
          rfl
        exact createConfirmedBooking_dup _ metadata session course user _ hc hu hfind

/-- Witness for C4: after the first reconciliation of `exSession` against
the empty `exDB`, a second reconciliation of the same event returns the
same booking and leaves the database at `exDBAfter`. -/
theorem webhook_idempotent_witness :
    StripeWebhookService.createConfirmedBooking exDBAfter exMeta exSession =
      (.ok exCreatedBooking, exDBAfter) :=
  (webhook_idempotent exDB exMeta exSession exCourse exUser
      (by decide) (by decide) (by decide)).2 exDBAfter exCreatedBooking (by decide)

/-- **C5.** A webhook POST whose `stripe-signature` header is missing, or
whose raw body fails the gateway's signature verification against the
shared secret, is rejected with HTTP 401 (AUTHENTICATION error): the
database is left unchanged, and the response does not depend on the
database at all — no database access takes place. -/
theorem webhook_bad_signature_unauthorized
    (constructEvent : String → String → String → Except String StripeEvent)
    (secret : String) (db : DB) (request : WebhookRequest)
    (h : request.signatureHeader = none ∨
      ∃ sig err, request.signatureHeader = some sig ∧
        constructEvent request.body sig secret = .error err) :
    (webhookPOST constructEvent (some secret) db request).1.status = 401 ∧
    (webhookPOST constructEvent (some secret) db request).1.errorType =
      some .AUTHENTICATION ∧
    (webhookPOST constructEvent (some secret) db request).2 = db ∧
    ∀ db2 : DB, (webhookPOST constructEvent (some secret) db2 request).1 =
      (webhookPOST constructEvent (some secret) db request).1 := by
  rcases h with hnone | ⟨sig, err, hsig, herr⟩
  · refine ⟨?_, ?_, ?_, ?_⟩ <;>
      simp [webhookPOST, hnone, ApiErrorHandler.handle, ApiErrorHandler.unauthorized]
  · refine ⟨?_, ?_, ?_, ?_⟩ <;>
      simp [webhookPOST, hsig, herr, ApiErrorHandler.handle, ApiErrorHandler.unauthorized]

/-- Witness for C5: a request whose signature fails verification is
answered with 401 and leaves the concrete database unchanged. -/
theorem webhook_bad_signature_unauthorized_witness :
    (webhookPOST ceReject (some "whsec_test") exDB exWebhookReq).1.status = 401 ∧
    (webhookPOST ceReject (some "whsec_test") exDB exWebhookReq).1.errorType =
      some .AUTHENTICATION ∧
    (webhookPOST ceReject (some "whsec_test") exDB exWebhookReq).2 = exDB :=
  have h := webhook_bad_signature_unauthorized ceReject "whsec_test" exDB exWebhookReq
    (Or.inr ⟨"t=1,v1=deadbeef",
      "No signatures found matching the expected signature for payload", rfl, rfl⟩)
  ⟨h.1, h.2.1, h.2.2.1⟩

/-- **C3, counterexample.** The claim says that when the transactional
capacity re-check finds the course full, the webhook endpoint responds
with a 2xx status. On a concrete full course (capacity 1, one CONFIRMED
booking) with a signature-verified, metadata-valid event, the endpoint
responds 500 — not a 2xx — though indeed no booking row is created. -/
theorem webhook_course_full_2xx_counterexample :
    (webhookPOST (ceCompleted exSession) (some "whsec_test") dbFull exWebhookReq).1.status
      = 500 ∧
    ¬ (200 ≤ (webhookPOST (ceCompleted exSession) (some "whsec_test") dbFull
          exWebhookReq).1.status ∧
        (webhookPOST (ceCompleted exSession) (some "whsec_test") dbFull
          exWebhookReq).1.status < 300) ∧
    (webhookPOST (ceCompleted exSession) (some "whsec_test") dbFull exWebhookReq).2
      = dbFull := by
  decide

/-- **C3, amended.** For every webhook whose signature verifies and whose
metadata validates, if the transactional capacity re-check finds the
CONFIRMED-booking count at or above the course's capacity, then no booking
row is created (the database is unchanged) and the endpoint responds with
HTTP 500 (INTERNAL): the capacity error is a plain `Error`, so the
centralized handler maps it to the generic 500 branch and the gateway will
treat the delivery as failed. -/
theorem webhook_course_full_responds_500
    (constructEvent : String → String → String → Except String StripeEvent)
    (secret : String) (db : DB) (request : WebhookRequest) (sig : String)
    (session : StripeSession) (metadata : IValidatedSessionMetadata)
    (course : Course) (user : User)
    (hsig : request.signatureHeader = some sig)
    (hce : constructEvent request.body sig secret =
      .ok (.checkoutSessionCompleted session))
    (hmeta : StripeWebhookService.validateSessionMetadata session.metadata =
      .ok metadata)
    (hc : findCourse db metadata.courseId = some course)
    (hu : findUser db metadata.userId = some user)
    (hdup : db.bookings.find? (duplicateFilter metadata) = none)
    (hfull : course.capacity ≤ confirmedCount db metadata.courseId metadata.date) :
    (webhookPOST constructEvent (some secret) db request).1 =
      { status := 500, errorType := some .INTERNAL } ∧
    (webhookPOST constructEvent (some secret) db request).2 = db := by
  have hrun : StripeWebhookService.handleCheckoutSessionCompleted db session =
      (.error "Cours complet - capacité dépassée", db) := by
    unfold StripeWebhookService.handleCheckoutSessionCompleted
    rw [hmeta]
    exact createConfirmedBooking_full db metadata session course user hc hu hdup hfull
  have hpost : webhookPOST constructEvent (some secret) db request =
      ({ status := 500, errorType := some .INTERNAL }, db) := by
    unfold webhookPOST
    rw [hsig]
    dsimp only
    rw [hce]
    dsimp only
    rw [hrun]
    rfl
  exact ⟨by rw [hpost], by rw [hpost]⟩

/-- Witness for the amended C3 at the concrete full course. -/
theorem webhook_course_full_responds_500_witness :
    (webhookPOST (ceCompleted exSession) (some "whsec_test") dbFull exWebhookReq).1 =
      { status := 500, errorType := some ErrorType.INTERNAL } ∧
    (webhookPOST (ceCompleted exSession) (some "whsec_test") dbFull exWebhookReq).2 =
      dbFull :=
  webhook_course_full_responds_500 (ceCompleted exSession) "whsec_test" dbFull
    exWebhookReq "t=1,v1=deadbeef" exSession exMeta exCourseCap1 exUser
    rfl rfl (by decide) (by decide) (by decide) (by decide) (by decide)

/-- **C6.** For every successfully created checkout session, the gateway
was invoked with exactly the parameters built server-side from the course
record fetched at session-creation time; their `unit_amount` is
`Math.round(course.price * 100)` cents, and it does not depend on any
client-supplied request field (only on the course). -/
theorem amount_integrity
    (gateway : StripeSessionParams → Except StripeGatewayError (String × Option String))
    (db : DB) (data : ICreateCheckoutSessionRequest) (userId : String)
    (course : Course) (result : String × Option String) (db2 : DB)
    (hc : findCourse db data.courseId = some course)
    (h : CheckoutSessionService.createSession gateway db data userId =
      (.ok result, db2)) :
    gateway (CheckoutSessionService.createStripeSessionParams data course) =
      .ok result ∧
    (CheckoutSessionService.createStripeSessionParams data course).unit_amount =
      jsRound (course.price * 100) ∧
    ∀ data2 : ICreateCheckoutSessionRequest,
      (CheckoutSessionService.createStripeSessionParams data2 course).unit_amount =
        (CheckoutSessionService.createStripeSessionParams data course).unit_amount := by
  refine ⟨?_, rfl, fun data2 => rfl⟩
  unfold CheckoutSessionService.createSession at h
  by_cases hid : data.userId ≠ userId
  · rw [if_pos hid] at h
    simp at h
  · rw [if_neg hid] at h
    have hg : CheckoutSessionService.getCourseData db data.courseId = .ok course := by
      unfold CheckoutSessionService.getCourseData
      rw [hc]
    rw [hg] at h
    dsimp only at h
    cases hav : CheckoutSessionService.checkAvailability db data.courseId data.date with
    | error e =>
      rw [hav] at h
      simp at h
    | ok b =>
      rw [hav] at h
      dsimp only at h
      cases hgw : gateway (CheckoutSessionService.createStripeSessionParams data course) with
      | error e =>
        rw [hgw] at h
        simp at h
      | ok r =>
        rw [hgw] at h
        simp only [Prod.mk.injEq, Except.ok.injEq] at h
        obtain ⟨rfl, rfl⟩ := h
        rfl

/-- Witness for C6: a successful concrete checkout; the gateway received
the parameters with `unit_amount = Math.round(25 * 100)`. -/
theorem amount_integrity_witness :
    gwOk (CheckoutSessionService.createStripeSessionParams exRequestData exCourse) =
      .ok ("cs_1", some "https://checkout.stripe.test/cs_1") ∧
    (CheckoutSessionService.createStripeSessionParams exRequestData exCourse).unit_amount =
      jsRound (exCourse.price * 100) :=
  have h := amount_integrity gwOk exDB exRequestData "user-1" exCourse
    ("cs_1", some "https://checkout.stripe.test/cs_1") exDB (by decide) (by decide)
  ⟨h.1, h.2.1⟩

/-- **C7.** The Checkout Initiator evaluates its preconditions in order:
a caller/`userId` mismatch fails with Forbidden (403) regardless of every
other parameter; with a matching caller, a missing course fails with
NotFound (404); with a matching caller and an existing course, a full
course fails with Conflict (409) — each later check is reached only when
all earlier ones pass. -/
theorem checkout_precondition_order
    (gateway : StripeSessionParams → Except StripeGatewayError (String × Option String))
    (db : DB) (data : ICreateCheckoutSessionRequest) (userId : String) :
    (data.userId ≠ userId →
      (CheckoutSessionService.createSession gateway db data userId).1 =
        .error (.api (ApiErrorHandler.forbidden
          "Vous ne pouvez réserver que pour vous-même"))) ∧
    (data.userId = userId → findCourse db data.courseId = none →
      (CheckoutSessionService.createSession gateway db data userId).1 =
        .error (.api (ApiErrorHandler.notFound "Cours introuvable"))) ∧
    (∀ course : Course, data.userId = userId →
      findCourse db data.courseId = some course →
      course.capacity ≤
        countByStatuses db data.courseId data.date [.CONFIRMED, .PENDING] →
      (CheckoutSessionService.createSession gateway db data userId).1 =
        .error (.api (ApiErrorHandler.conflict
          "Ce cours est complet pour cette date"))) := by
  refine ⟨?_, ?_, ?_⟩
  · intro hne
    unfold CheckoutSessionService.createSession
    rw [if_pos hne]
  · intro heq hnone
    unfold CheckoutSessionService.createSession
    rw [if_neg (by simp [heq])]
    have hg : CheckoutSessionService.getCourseData db data.courseId =
        .error (ApiErrorHandler.notFound "Cours introuvable") := by
      unfold CheckoutSessionService.getCourseData
      rw [hnone]
    rw [hg]
  · intro course heq hcourse hcap
    unfold CheckoutSessionService.createSession
    rw [if_neg (by simp [heq])]
    have hg : CheckoutSessionService.getCourseData db data.courseId = .ok course := by
      unfold CheckoutSessionService.getCourseData
      rw [hcourse]
    rw [hg]
    dsimp only
    have hav : CheckoutSessionService.checkAvailability db data.courseId data.date =
        .error (ApiErrorHandler.conflict "Ce cours est complet pour cette date") := by
      unfold CheckoutSessionService.checkAvailability
      rw [hcourse]
      dsimp only
      rw [if_pos hcap]
    rw [hav]

/-- Witness for C7: each of the three ordered failures observed at a
concrete input — foreign `userId`, unknown course, full course. -/
theorem checkout_precondition_order_witness :
    (CheckoutSessionService.createSession gwOk exDB exRequestDataOther "user-1").1 =
      .error (.api (ApiErrorHandler.forbidden
        "Vous ne pouvez réserver que pour vous-même")) ∧
    (CheckoutSessionService.createSession gwOk exDB exRequestDataNoCourse "user-1").1 =
      .error (.api (ApiErrorHandler.notFound "Cours introuvable")) ∧
    (CheckoutSessionService.createSession gwOk dbFull exRequestData "user-1").1 =
      .error (.api (ApiErrorHandler.conflict "Ce cours est complet pour cette date")) :=
  ⟨(checkout_precondition_order gwOk exDB exRequestDataOther "user-1").1 (by decide),
   (checkout_precondition_order gwOk exDB exRequestDataNoCourse "user-1").2.1
     rfl (by decide),
   (checkout_precondition_order gwOk dbFull exRequestData "user-1").2.2
     exCourseCap1 rfl (by decide) (by decide)⟩

/-- **C8.** Checkout initiation performs no writes to the booking store:
whatever the gateway does and wherever the call fails or succeeds, the
database — in particular the Booking table — after `createSession` is the
database before it. -/
theorem checkout_no_booking_writes
    (gateway : StripeSessionParams → Except StripeGatewayError (String × Option String))
    (db : DB) (data : ICreateCheckoutSessionRequest) (userId : String) :
    (CheckoutSessionService.createSession gateway db data userId).2 = db ∧
    ((CheckoutSessionService.createSession gateway db data userId).2).bookings =
      db.bookings := by
  have h2 : (CheckoutSessionService.createSession gateway db data userId).2 = db := by
    unfold CheckoutSessionService.createSession
    by_cases hid : data.userId ≠ userId
    · rw [if_pos hid]
    · rw [if_neg hid]
      cases hg : CheckoutSessionService.getCourseData db data.courseId with
      | error e => rfl
      | ok course =>
        dsimp only
        cases hav : CheckoutSessionService.checkAvailability db data.courseId data.date with
        | error e => rfl
        | ok b =>
          dsimp only
          cases hgw : gateway (CheckoutSessionService.createStripeSessionParams data course) with
          | error e => rfl
          | ok r => rfl
  exact ⟨h2, by rw [h2]⟩

/-- **C9, counterexample.** The claim says a successful reconciliation ends
with a CONFIRMED booking for the event's triple, promoting an existing
PENDING booking. Concretely: `dbPend` holds one PENDING booking by
`user-2`; the capacity re-check would pass (0 CONFIRMED < 1); processing
the completed payment for `user-2` returns success — but the booking is
returned as-is, still PENDING, and no CONFIRMED booking for the triple
exists afterwards. -/
theorem webhook_no_promotion_counterexample :
    StripeWebhookService.createConfirmedBooking dbPend metaU2 exSession =
      (.ok exPendingBooking, dbPend) ∧
    exPendingBooking.status = BookingStatus.PENDING ∧
    confirmedCount dbPend metaU2.courseId metaU2.date < exCourseCap1.capacity ∧
    (dbPend.bookings.filter (fun b =>
      b.courseId == metaU2.courseId && b.userId == metaU2.userId &&
        dateEq b.date (jsDate metaU2.date) &&
        b.status == BookingStatus.CONFIRMED)) = [] := by
  decide

/-- **C9, amended.** For a valid payment-completed event processed while
capacity remains: if a booking with the same `(userId, courseId, date)`
and status in {CONFIRMED, PENDING} already exists, the reconciler returns
that booking **unchanged** (no promotion — an existing PENDING booking
stays PENDING); only when no such booking exists does it create a new
CONFIRMED booking for the triple. -/
theorem webhook_success_confirms_or_returns_existing
    (db : DB) (metadata : IValidatedSessionMetadata) (session : StripeSession)
    (course : Course) (user : User)
    (hc : findCourse db metadata.courseId = some course)
    (hu : findUser db metadata.userId = some user)
    (hcap : confirmedCount db metadata.courseId metadata.date < course.capacity) :
    (∀ b, db.bookings.find? (duplicateFilter metadata) = some b →
      StripeWebhookService.createConfirmedBooking db metadata session = (.ok b, db)) ∧
    (db.bookings.find? (duplicateFilter metadata) = none →
      StripeWebhookService.createConfirmedBooking db metadata session =
        (.ok (createdBooking metadata session),
          { db with bookings := db.bookings ++ [createdBooking metadata session] }) ∧
      (createdBooking metadata session).status = BookingStatus.CONFIRMED ∧
      (createdBooking metadata session).courseId = metadata.courseId ∧
      (createdBooking metadata session).userId = metadata.userId ∧
      (createdBooking metadata session).date = jsDate metadata.date) :=
  ⟨fun b hb => createConfirmedBooking_dup db metadata session course user b hc hu hb,
   fun hdup =>
    ⟨createConfirmedBooking_created db metadata session course user hc hu hdup hcap,
     rfl, rfl, rfl, rfl⟩⟩

/-- Witness for the amended C9: the concrete PENDING booking of `dbPend`
is returned unchanged by a successful reconciliation. -/
theorem webhook_success_confirms_or_returns_existing_witness :
    StripeWebhookService.createConfirmedBooking dbPend metaU2 exSession =
      (.ok exPendingBooking, dbPend) :=
  (webhook_success_confirms_or_returns_existing dbPend metaU2 exSession exCourseCap1
      exUser2 (by decide) (by decide) (by decide)).1 exPendingBooking (by decide)

/-- **C10, counterexample.** The claim says the stored currency is the
session's currency whenever it is non-null. For a session whose currency
is the (non-null) empty string, the code's `session.currency || 'eur'`
falls back to `'eur'`: the stored currency is `"eur"`, not `""`. -/
theorem webhook_currency_truthiness_counterexample :
    exSessionEmptyCur.currency = some "" ∧
    (StripeWebhookService.createConfirmedBooking exDB exMeta exSessionEmptyCur).1.map
      (fun b => b.currency) = .ok "eur" ∧
    "eur" ≠ "" := by
  decide

/-- **C10, amended.** When the reconciler creates the confirmed booking,
the stored amount is the session's `amount_total / 100` when `amount_total`
is non-null (including 0) and `0` when it is null; the stored currency is
the session's currency when it is non-null **and non-empty**, and the
literal `'eur'` when it is null **or empty**; the payment reference is the
session's payment intent — none of these is recomputed from the course's
price. -/
theorem webhook_amount_currency_from_session
    (db : DB) (metadata : IValidatedSessionMetadata) (session : StripeSession)
    (b : Booking) (db2 : DB)
    (hdup : db.bookings.find? (duplicateFilter metadata) = none)
    (h : StripeWebhookService.createConfirmedBooking db metadata session =
      (.ok b, db2)) :
    b.amount = (match session.amount_total with
      | some a => (a : ℚ) / 100
      | none => 0) ∧
    b.currency = (match session.currency with
      | some c => if c = "" then "eur" else c
      | none => "eur") ∧
    b.paymentId = session.payment_intent ∧
    b.paymentStatus = PaymentStatus.PAID := by
  unfold StripeWebhookService.createConfirmedBooking at h
  cases hc : findCourse db metadata.courseId with
  | none =>
    rw [hc] at h
    simp at h
  | some course =>
    rw [hc] at h
    dsimp only at h
    cases hu : findUser db metadata.userId with
    | none =>
      rw [hu] at h
      simp at h
    | some user =>
      rw [hu] at h
      dsimp only at h
      rw [hdup] at h
      dsimp only at h
      by_cases hcap :
          course.capacity ≤ confirmedCount db metadata.courseId metadata.date
      · rw [if_pos hcap] at h
        simp at h
      · rw [if_neg hcap] at h
        simp only [Prod.mk.injEq, Except.ok.injEq] at h
        obtain ⟨rfl, rfl⟩ := h
        refine ⟨?_, ?_, rfl, rfl⟩
        · dsimp only [createdBooking]
          cases session.amount_total with
          | none => rfl
          | some a =>
            by_cases ha : a = 0
            · subst ha
              simp
            · simp [ha]
        · dsimp only [createdBooking]
          cases session.currency with
          | none => rfl
          | some c =>
            by_cases hcur : c = ""
            · subst hcur
              simp
            · simp [hcur]

/-- Witness for the amended C10: the booking created for
`exSessionEmptyCur` stores `2550 / 100` and falls back to `'eur'`. -/
theorem webhook_amount_currency_from_session_witness :
    (createdBooking exMeta exSessionEmptyCur).amount =
      (match exSessionEmptyCur.amount_total with
        | some a => (a : ℚ) / 100
        | none => 0) ∧
    (createdBooking exMeta exSessionEmptyCur).currency =
      (match exSessionEmptyCur.currency with
        | some c => if c = "" then "eur" else c
        | none => "eur") ∧
    (createdBooking exMeta exSessionEmptyCur).paymentId =
      exSessionEmptyCur.payment_intent ∧
    (createdBooking exMeta exSessionEmptyCur).paymentStatus = PaymentStatus.PAID :=
  webhook_amount_currency_from_session exDB exMeta exSessionEmptyCur
    (createdBooking exMeta exSessionEmptyCur)
    { exDB with bookings := exDB.bookings ++ [createdBooking exMeta exSessionEmptyCur] }
    (by decide) rfl
